import Mathlib

/-!
Verification of the OCR dispatch core of the open-ocr repository.

The Go sources (ocr_rpc_client.go, ocr_postback_client.go, ocr_res_manager.go)
are embedded shallowly: external effects (AMQP calls, HTTP calls, JSON
marshalling) are parameterized by explicit outcome values, goroutine and
channel interaction is modelled sequentially, and Go maps are modelled as
association lists with Go map semantics (assignment shadows older bindings,
delete removes every binding, lookup returns the first binding).
-/

namespace OpenOcr

/-- OcrResult (ocr_rpc_client.go lines 26-30): result text, status, request id. -/
structure OcrResult where
  text : String
  status : String
  id : String
deriving DecidableEq

/-- The Go zero value of OcrResult. -/
def zeroResult : OcrResult := { text := "", status := "", id := "" }

/-- Body of an AMQP delivery as seen by json.Unmarshal into an OcrResult. -/
inductive DeliveryBody where
  /-- a body that json.Unmarshal decodes without error into the given OcrResult -/
  | valid (r : OcrResult)
  /-- a syntactically malformed body: json.Unmarshal reports a parse error and
      leaves the zero OcrResult untouched -/
  | malformed (raw : String)
deriving DecidableEq

/-- An AMQP delivery envelope; handleRpcResponse reads only the correlation id
    and the body (ocr_rpc_client.go lines 348-372). -/
structure Delivery where
  correlationId : String
  body : DeliveryBody
deriving DecidableEq

/-- json.Unmarshal of a delivery body into an OcrResult followed by the
    unconditional stamp ocrResult.ID = correlationID
    (ocr_rpc_client.go lines 360-367). -/
def processDelivery (correlationID : String) (b : DeliveryBody) : OcrResult :=
  let ocrResult := match b with
    | .valid r => r
    | .malformed _ => zeroResult
  { ocrResult with id := correlationID }

/-- handleRpcResponse (ocr_rpc_client.go lines 342-379): ranges over the
    deliveries, skips mismatched correlation ids, and on the first match
    unmarshals the body, stamps the request id, sends the result to the
    response channel and returns. The value returned here is the OcrResult
    sent to rpcResponseChan, or none when the stream closes without a match. -/
def handleRpcResponse (deliveries : List Delivery) (correlationID : String) :
    Option OcrResult :=
  match deliveries with
  | [] => none
  | d :: rest =>
    if d.correlationId = correlationID then
      some (processDelivery correlationID d.body)
    else
      handleRpcResponse rest correlationID

theorem processDelivery_id (correlationID : String) (b : DeliveryBody) :
    (processDelivery correlationID b).id = correlationID := by
  cases b <;> rfl

/-- C1: every OcrResult that handleRpcResponse delivers to the response channel
    carries the request id (the correlation id it was spawned for), regardless
    of the id field in the JSON payload body. -/
theorem c1_reply_router_stamps_request_id (deliveries : List Delivery)
    (correlationID : String) (res : OcrResult)
    (h : handleRpcResponse deliveries correlationID = some res) :
    res.id = correlationID := by
  induction deliveries with
  | nil => simp [handleRpcResponse] at h
  | cons d rest ih =>
    simp only [handleRpcResponse] at h
    split at h
    · injection h with h
      subst h
      exact processDelivery_id _ _
    · exact ih h

/-- C1 witness: a concrete correlated delivery whose payload carries a
    different id field than the request id. -/
theorem c1_witness :
    ({ text := "hello", status := "done", id := "r1" } : OcrResult).id = "r1" :=
  c1_reply_router_stamps_request_id
    [{ correlationId := "r1",
       body := .valid { text := "hello", status := "done", id := "other" } }]
    "r1" { text := "hello", status := "done", id := "r1" } (by decide)

/-- C8 counterexample: a correlated delivery with a malformed JSON body is
    delivered with status "" and text "" (the zero OcrResult with the id
    stamped), not status "error" with a parse-error text as claimed. -/
theorem c8_counterexample :
    handleRpcResponse [{ correlationId := "r1", body := .malformed "not-json" }] "r1" =
      some { text := "", status := "", id := "r1" } ∧
    ({ text := "", status := "", id := "r1" } : OcrResult).status ≠ "error" := by
  constructor
  · decide
  · decide

/-- C8 (amended): when the first delivery with matching correlation id has a
    syntactically malformed body, handleRpcResponse still delivers a result and
    terminates, and the result carries the correct request id, but its status
    and text are the Go zero values "" (the parse error is only logged), not
    status "error" with the parse-error text. -/
theorem c8_malformed_body_zero_result (pre post : List Delivery) (d : Delivery)
    (corrID raw : String)
    (hpre : ∀ x ∈ pre, x.correlationId ≠ corrID)
    (hd : d.correlationId = corrID) (hb : d.body = .malformed raw) :
    handleRpcResponse (pre ++ d :: post) corrID =
      some { text := "", status := "", id := corrID } := by
  induction pre with
  | nil =>
    simp only [List.nil_append, handleRpcResponse]
    rw [if_pos hd, hb]
    rfl
  | cons x xs ih =>
    simp only [List.cons_append, handleRpcResponse]
    rw [if_neg (hpre x (List.mem_cons_self x xs))]
    exact ih fun y hy => hpre y (List.mem_cons_of_mem x hy)

/-- C8 witness: a mismatched delivery followed by a correlated malformed one. -/
theorem c8_witness :
    handleRpcResponse
      [{ correlationId := "other", body := .valid zeroResult },
       { correlationId := "r1", body := .malformed "xyz" }] "r1" =
      some { text := "", status := "", id := "r1" } :=
  c8_malformed_body_zero_result
    [{ correlationId := "other", body := .valid zeroResult }] []
    { correlationId := "r1", body := .malformed "xyz" } "r1" "xyz"
    (by decide) (by decide) (by decide)

/-- Association-list lookup with Go map semantics: the first binding wins. -/
def mapLookup {β : Type} : List (String × β) → String → Option β
  | [], _ => none
  | p :: rest, k => if p.1 = k then some p.2 else mapLookup rest k

/-- Go delete on a map: removes every binding of the key. -/
def removeKey {β : Type} : List (String × β) → String → List (String × β)
  | [], _ => []
  | p :: rest, k => if p.1 = k then removeKey rest k else p :: removeKey rest k

/-- Mutation of the channel object a key is bound to: every binding of the key
    gets the new contents (in Go the map binding is a pointer to the channel;
    receiving from the channel changes its buffer, not the map). -/
def updateKey {β : Type} : List (String × β) → String → β → List (String × β)
  | [], _, _ => []
  | p :: rest, k, v =>
    if p.1 = k then (p.1, v) :: updateKey rest k v else p :: updateKey rest k v

/-- Membership of an id in the timers map (ocr_rpc_client.go line 43). -/
def hasTimer : List String → String → Bool
  | [], _ => false
  | t :: rest, k => if t = k then true else hasTimer rest k

/-- Go delete on the timers map. -/
def removeTimer : List String → String → List String
  | [], _ => []
  | t :: rest, k => if t = k then removeTimer rest k else t :: removeTimer rest k

/-- The shared registry (ocr_rpc_client.go lines 39-45): Requests maps a request
    id to its response channel, modelled as the list of buffered results in FIFO
    order; timers holds the ids that own an armed deadline timer. -/
structure RegistryState where
  requests : List (String × List OcrResult)
  timers : List String
deriving DecidableEq

/-- deleteRequestFromQueue (ocr_rpc_client.go lines 409-433): deletes the id
    from Requests, then calls timers[requestID].Stop() and deletes the timer
    entry. When no timer entry exists, timers[requestID] is the nil *time.Timer
    and Stop() dereferences nil: the call panics, modelled as none. -/
def deleteRequestFromQueue (st : RegistryState) (requestID : String) :
    Option RegistryState :=
  let requests1 := removeKey st.requests requestID
  if hasTimer st.timers requestID then
    some { requests := requests1, timers := removeTimer st.timers requestID }
  else
    none

/-- CheckOcrStatusByID (ocr_rpc_client.go lines 382-407), sequential model.
    Unknown id: the "no such request" error. Known id with an empty channel:
    the select hits the default branch, the id is still present, so
    {status: processing, id} is returned. Known id with a buffered result:
    the result is received; when its status is not "processing" the entry and
    its timer are removed via deleteRequestFromQueue (none = that call
    panicked). -/
def CheckOcrStatusByID (st : RegistryState) (requestID : String) :
    Option (RegistryState × Except String OcrResult) :=
  match mapLookup st.requests requestID with
  | none => some (st, Except.error ("no such request " ++ requestID))
  | some chanContents =>
    match chanContents with
    | [] => some (st, Except.ok { text := "", status := "processing", id := requestID })
    | ocrResult :: rest =>
      let st1 : RegistryState := { st with requests := updateKey st.requests requestID rest }
      if ocrResult.status ≠ "processing" then
        match deleteRequestFromQueue st1 requestID with
        | some st2 => some (st2, Except.ok ocrResult)
        | none => none
      else
        some (st1, Except.ok ocrResult)

theorem mapLookup_removeKey {β : Type} (m : List (String × β)) (k : String) :
    mapLookup (removeKey m k) k = none := by
  induction m with
  | nil => rfl
  | cons p rest ih =>
    by_cases hp : p.1 = k
    · simp [removeKey, hp, ih]
    · simp [removeKey, mapLookup, hp, ih]

theorem hasTimer_removeTimer (l : List String) (k : String) :
    hasTimer (removeTimer l k) k = false := by
  induction l with
  | nil => rfl
  | cons t rest ih =>
    by_cases ht : t = k
    · simp [removeTimer, ht, ih]
    · simp [removeTimer, hasTimer, ht, ih]

/-- C9 counterexample: the first deleteRequestFromQueue removes the entry and
    its timer; the second invocation on the resulting state dereferences the
    nil timer returned by the timers map and panics (modelled none). -/
theorem c9_counterexample :
    deleteRequestFromQueue { requests := [("r1", [])], timers := ["r1"] } "r1" =
      some { requests := [], timers := [] } ∧
    deleteRequestFromQueue { requests := [], timers := [] } "r1" = none := by
  constructor
  · decide
  · decide

/-- C9 (amended): deleteRequestFromQueue completes without panic exactly when a
    timer entry for the id exists; after a successful call the timer entry is
    gone, so a second invocation panics on the nil timer. The operation is not
    idempotent. -/
theorem c9_second_delete_panics (st st1 : RegistryState) (requestID : String)
    (h : deleteRequestFromQueue st requestID = some st1) :
    deleteRequestFromQueue st1 requestID = none ∧
    ((deleteRequestFromQueue st requestID).isSome ↔
      hasTimer st.timers requestID = true) := by
  simp only [deleteRequestFromQueue] at h
  split at h
  case isTrue hTimer =>
    injection h with h
    constructor
    · subst h
      simp only [deleteRequestFromQueue]
      rw [if_neg]
      simp [hasTimer_removeTimer]
    · simp only [deleteRequestFromQueue]
      rw [if_pos hTimer]
      simp [hTimer]
  case isFalse hTimer => exact absurd h (by simp)

/-- C9 witness: a concrete first deletion followed by the panicking second one. -/
theorem c9_witness :
    deleteRequestFromQueue { requests := [], timers := [] } "r2" = none ∧
    ((deleteRequestFromQueue { requests := [("r2", [])], timers := ["r2"] } "r2").isSome ↔
      hasTimer ["r2"] "r2" = true) :=
  c9_second_delete_panics { requests := [("r2", [])], timers := ["r2"] }
    { requests := [], timers := [] } "r2" (by decide)

/-- C3: polling an unknown id returns the "no such request" error; polling a
    registered id whose channel is empty returns {status: processing, id};
    polling after a terminal result was delivered returns that result once and
    removes the entry, so a second poll returns the unknown-request error. -/
theorem c3_poll_lifecycle (st : RegistryState) (requestID : String) :
    (mapLookup st.requests requestID = none →
      CheckOcrStatusByID st requestID =
        some (st, Except.error ("no such request " ++ requestID))) ∧
    (mapLookup st.requests requestID = some [] →
      CheckOcrStatusByID st requestID =
        some (st, Except.ok { text := "", status := "processing", id := requestID })) ∧
    (∀ r, mapLookup st.requests requestID = some [r] → r.status ≠ "processing" →
      hasTimer st.timers requestID = true →
      ∃ st2, CheckOcrStatusByID st requestID = some (st2, Except.ok r) ∧
        mapLookup st2.requests requestID = none ∧
        CheckOcrStatusByID st2 requestID =
          some (st2, Except.error ("no such request " ++ requestID))) := by
  refine ⟨fun h => ?_, fun h => ?_, fun r h hr ht => ?_⟩
  · simp [CheckOcrStatusByID, h]
  · simp [CheckOcrStatusByID, h]
  · refine ⟨{ requests := removeKey (updateKey st.requests requestID []) requestID,
              timers := removeTimer st.timers requestID }, ?_, ?_, ?_⟩
    · simp only [CheckOcrStatusByID, h]
      rw [if_pos hr]
      simp only [deleteRequestFromQueue]
      rw [if_pos ht]
    · exact mapLookup_removeKey _ _
    · simp [CheckOcrStatusByID, mapLookup_removeKey]

/-- C3 witness: the three poll behaviors at concrete registry states. -/
theorem c3_witness :
    CheckOcrStatusByID { requests := [], timers := [] } "rA" =
      some ({ requests := [], timers := [] },
        Except.error ("no such request " ++ "rA")) ∧
    CheckOcrStatusByID { requests := [("rB", [])], timers := ["rB"] } "rB" =
      some ({ requests := [("rB", [])], timers := ["rB"] },
        Except.ok { text := "", status := "processing", id := "rB" }) ∧
    (∃ st2,
      CheckOcrStatusByID
          { requests := [("rC", [{ text := "hi", status := "done", id := "rC" }])],
            timers := ["rC"] } "rC" =
        some (st2, Except.ok { text := "hi", status := "done", id := "rC" }) ∧
      mapLookup st2.requests "rC" = none ∧
      CheckOcrStatusByID st2 "rC" =
        some (st2, Except.error ("no such request " ++ "rC"))) :=
  ⟨(c3_poll_lifecycle { requests := [], timers := [] } "rA").1 (by decide),
   (c3_poll_lifecycle { requests := [("rB", [])], timers := ["rB"] } "rB").2.1 (by decide),
   (c3_poll_lifecycle
      { requests := [("rC", [{ text := "hi", status := "done", id := "rC" }])],
        timers := ["rC"] } "rC").2.2
     { text := "hi", status := "done", id := "rC" } (by decide) (by decide) (by decide)⟩

/-- OcrQueueManager (ocr_res_manager.go lines 11-15): the queue-stats snapshot. -/
structure OcrQueueManager where
  numMessages : Nat
  numConsumers : Nat
  messageBytes : Nat
deriving DecidableEq

/-- ocrResManager entry (ocr_res_manager.go lines 17-20): one broker node's
    memory limit and usage. -/
structure OcrResManagerEntry where
  memLimit : Nat
  memUsed : Nat
deriving DecidableEq

/-- Modulus of Go's 64-bit unsigned arithmetic. -/
def UINT64_MOD : Nat := 2 ^ 64

/-- memoryThreshold (ocr_res_manager.go line 23). -/
def memoryThreshold : Nat := 95

/-- schedulerByMemoryLoad (ocr_res_manager.go lines 116-129): sums used and
    limit over the nodes in uint64 arithmetic and tests
    used < limit * memoryThreshold / 100. -/
def schedulerByMemoryLoad (resManager : List OcrResManagerEntry) : Bool :=
  let memTotalInUse := resManager.foldl (fun acc e => (acc + e.memUsed) % UINT64_MOD) 0
  let memTotalAvailable := resManager.foldl (fun acc e => (acc + e.memLimit) % UINT64_MOD) 0
  decide (memTotalInUse < memTotalAvailable * memoryThreshold % UINT64_MOD / 100)

/-- Modelled from the spec: getQueueLen is code of this repository that is not
    under src/; the spec's queueOK predicate reads the queue length as the
    number of queued messages of the snapshot. -/
def getQueueLen (qm : OcrQueueManager) : Nat := qm.numMessages

/-- schedulerByWorkerNumber (ocr_res_manager.go lines 132-138): queue length
    below consumers * factorForMessageAccept (uint arithmetic, 64-bit). -/
def schedulerByWorkerNumber (qm : OcrQueueManager) (factor : Nat) : Bool :=
  decide (getQueueLen qm < qm.numConsumers * factor % UINT64_MOD)

/-- CheckForAcceptRequest (ocr_res_manager.go lines 45-113): returns the pair
    (isAvailable, TechnicalErrorResManager). An Option argument is none when
    fetching or unmarshalling the corresponding stats resource fails (the four
    early-return error branches, all of which yield (false, true)). A snapshot
    with zero consumers returns false with the technical-error flag raised.
    Otherwise both schedulers must pass for the request to be accepted. -/
def CheckForAcceptRequest (factor : Nat) (queueStats : Option OcrQueueManager)
    (resStats : Option (List OcrResManagerEntry)) : Bool × Bool :=
  match queueStats with
  | none => (false, true)
  | some qm =>
    match resStats with
    | none => (false, true)
    | some rm =>
      if qm.numConsumers = 0 then (false, true)
      else
        let flagForResources := schedulerByMemoryLoad rm
        let flagForQueue := schedulerByWorkerNumber qm factor
        if flagForQueue && flagForResources then (true, false) else (false, false)

/-- One iteration of the polling loop body of SetResManagerState
    (ocr_res_manager.go lines 163-169): ServiceCanAccept is assigned the return
    of CheckForAcceptRequest and TechnicalErrorResManager is the global flag
    that call wrote; the pair is what GetAcceptState (declared outside src/,
    per the spec's core-facing interface) exposes to the HTTP layer. -/
def setResManagerStep (factor : Nat) (queueStats : Option OcrQueueManager)
    (resStats : Option (List OcrResManagerEntry)) : Bool × Bool :=
  CheckForAcceptRequest factor queueStats resStats

/-- C6 counterexample: a successfully fetched snapshot reporting zero consumers
    yields the observed state (accepting = false, technicalError = true), not
    (false, false) as claimed. -/
theorem c6_counterexample :
    setResManagerStep 2 (some { numMessages := 5, numConsumers := 0, messageBytes := 100 })
      (some [{ memLimit := 1000, memUsed := 10 }]) = (false, true) ∧
    ((false, true) : Bool × Bool) ≠ ((false, false) : Bool × Bool) := by
  constructor
  · decide
  · decide

/-- C6 (amended): whenever the queue-stats snapshot reports consumers == 0, one
    polling iteration sets the accept flag to false and the technical-error
    flag to true, whatever the node stats are. -/
theorem c6_consumers_zero_flags (factor : Nat) (qm : OcrQueueManager)
    (resStats : Option (List OcrResManagerEntry)) (h : qm.numConsumers = 0) :
    setResManagerStep factor (some qm) resStats = (false, true) := by
  cases resStats <;> simp [setResManagerStep, CheckForAcceptRequest, h]

/-- C6 witness: a concrete zero-consumer snapshot. -/
theorem c6_witness :
    setResManagerStep 4 (some { numMessages := 1, numConsumers := 0, messageBytes := 0 })
      (some []) = (false, true) :=
  c6_consumers_zero_flags 4 { numMessages := 1, numConsumers := 0, messageBytes := 0 }
    (some []) (by decide)

/-- Outcome of one HTTP POST attempt of postOcrRequest
    (ocr_postback_client.go lines 21-52). -/
inductive PostOutcome where
  /-- client.Do returned a transport error, or reading the response body failed -/
  | transportErr
  /-- an HTTP response with the given status code was fully received -/
  | response (statusCode : Nat)
deriving DecidableEq

/-- postOcrRequest (ocr_postback_client.go lines 21-52): marshals the OcrResult
    (marshalling a struct of three strings cannot fail) and POSTs it to the
    reply address; returns true (a non-nil error) exactly on a transport
    failure; the status code of a received response is logged and otherwise
    ignored, so any 2xx, 4xx or 5xx response yields a nil error. -/
def postOcrRequestErrs : PostOutcome → Bool
  | .transportErr => true
  | .response _ => false

/-- numRetries (ocr_rpc_client.go line 47). -/
def numRetries : Nat := 3

/-- Events of the postback delivery loop. -/
inductive RetryEvent where
  | post (tryCounter : Nat)
  | sleep (seconds : Nat)
deriving DecidableEq

/-- The do-while retry loop of the postback goroutine once a result arrived
    (ocr_rpc_client.go lines 252-262): posts with the current tryCounter; on an
    error increments the counter and sleeps 2 seconds, then repeats while
    tryCounter <= numRetries; a post that returns no error breaks out of the
    whole goroutine loop (break T). attempts gives the outcome of the POST made
    with a given tryCounter value. Returns the event trace and whether the
    delivery succeeded. -/
def retryLoop (attempts : Nat → PostOutcome) (nRetries : Nat) (tryCounter : Nat) :
    List RetryEvent × Bool :=
  if postOcrRequestErrs (attempts tryCounter) = true then
    if h1 : tryCounter + 1 ≤ nRetries then
      let r := retryLoop attempts nRetries (tryCounter + 1)
      (RetryEvent.post tryCounter :: RetryEvent.sleep 2 :: r.1, r.2)
    else
      ([RetryEvent.post tryCounter, RetryEvent.sleep 2], false)
  else
    ([RetryEvent.post tryCounter], true)
termination_by nRetries + 1 - tryCounter
decreasing_by omega

/-- C5: when every POST attempt fails with a transport error, the retry loop
    performs exactly numRetries = 3 attempts, each followed by a 2-second
    sleep, and then stops with the delivery undelivered; an attempt that
    receives an HTTP response of any status ends the retrying at once as a
    successful delivery. -/
theorem c5_postback_retry (attempts : Nat → PostOutcome) :
    ((∀ k, attempts k = PostOutcome.transportErr) →
      retryLoop attempts numRetries 1 =
        ([RetryEvent.post 1, RetryEvent.sleep 2, RetryEvent.post 2, RetryEvent.sleep 2,
          RetryEvent.post 3, RetryEvent.sleep 2], false)) ∧
    (∀ tc s, attempts tc = PostOutcome.response s →
      retryLoop attempts numRetries tc = ([RetryEvent.post tc], true)) := by
  constructor
  · intro h
    rw [retryLoop, retryLoop, retryLoop]
    simp [h 1, h 2, h 3, postOcrRequestErrs, numRetries]
  · intro tc s h
    rw [retryLoop]
    simp [h, postOcrRequestErrs]

/-- Attempts that always fail with a transport error. -/
def alwaysTransportErr : Nat → PostOutcome := fun _ => PostOutcome.transportErr

/-- Attempts that always receive an HTTP 503 response. -/
def alwaysResponse503 : Nat → PostOutcome := fun _ => PostOutcome.response 503

/-- C5 witness: the all-fail trace and the immediate delivery on a 503. -/
theorem c5_witness :
    retryLoop alwaysTransportErr numRetries 1 =
      ([RetryEvent.post 1, RetryEvent.sleep 2, RetryEvent.post 2, RetryEvent.sleep 2,
        RetryEvent.post 3, RetryEvent.sleep 2], false) ∧
    retryLoop alwaysResponse503 numRetries 1 = ([RetryEvent.post 1], true) :=
  ⟨(c5_postback_retry alwaysTransportErr).1 (fun _ => rfl),
   (c5_postback_retry alwaysResponse503).2 1 503 rfl⟩

/-- Events the outer select of the postback goroutine can observe
    (ocr_rpc_client.go lines 246-273). -/
inductive SelectEvent where
  /-- a result arrived on rpcResponseChan -/
  | resultArrived (r : OcrResult)
  /-- the time.After branch fired before any result arrived -/
  | timeoutFired
deriving DecidableEq

/-- Body of the first POST the postback goroutine performs after its first
    select event: ocrRes is initialized to the placeholder
    OcrResult{ID: requestID, Status: "error", Text: ""}
    (ocr_rpc_client.go line 243) and is overwritten only when a result arrives
    (line 251); the time.After branch posts ocrRes as is (line 265). -/
def postbackFirstPostBody (requestID : String) (ev : SelectEvent) : OcrResult :=
  let ocrRes : OcrResult := { text := "", status := "error", id := requestID }
  match ev with
  | .resultArrived r => r
  | .timeoutFired => ocrRes

/-- C10: when the reply-timeout branch fires before any result arrived on the
    response channel, the body POSTed to the postback URL is the placeholder
    OcrResult with the request id, status "error" and empty text. -/
theorem c10_timeout_posts_placeholder (requestID : String) :
    postbackFirstPostBody requestID SelectEvent.timeoutFired =
      { text := "", status := "error", id := requestID } := rfl

/-- OcrRequest fields read by DecodeImage (the struct declaration is code of the
    repository outside src/; the fields and their meanings follow the spec's
    data model and the accesses in ocr_rpc_client.go). imgBase64 models the
    hasBase64() test. -/
structure OcrRequest where
  imgBytes : Option (List Nat)
  imgBase64 : Bool
  docType : String
  timeOut : Nat
  deferred : Bool
  replyTo : String
deriving DecidableEq

/-- RabbitConfig fields read by the embedded code (the struct declaration is
    code of the repository outside src/; the field list follows the spec's
    configuration section). -/
structure RabbitConfig where
  reliable : Bool
  responseCacheTimeout : Nat
  maximalResponseCacheTimeout : Nat
  factorForMessageAccept : Nat
  queuePrio : List (String × Nat)
deriving DecidableEq

/-- Priority selection (ocr_rpc_client.go lines 90-101): messagePriority starts
    at 1; when DocType is set it becomes the priority-table entry for DocType,
    or else the entry for "standard" (the Go zero value 0 when that key is
    absent from the map). -/
def selectPriority (cfg : RabbitConfig) (docType : String) : Nat :=
  if docType ≠ "" then
    match mapLookup cfg.queuePrio docType with
    | some val => val
    | none => (mapLookup cfg.queuePrio "standard").getD 0
  else 1

/-- Timeout clamping (ocr_rpc_client.go lines 102-105). -/
def clampTimeout (cfg : RabbitConfig) (t : Nat) : Nat :=
  if t ≥ cfg.maximalResponseCacheTimeout ∨ t = 0 then cfg.responseCacheTimeout else t

/-- Outcomes of the external effects DecodeImage performs, in program order.
    Each Option String field is none on success, or some message when the call
    fails with that error. checkURLForReplyTo is code of the repository outside
    src/; only its outcome (validated URL or error) is consumed here. syncReply
    is some r when a result arrives on rpcResponseChan before the synchronous
    time.After branch fires. chanBuffered is the content the response channel
    already holds at registration time of a deferred request. -/
structure DialEnv where
  checkURLForReplyTo : String → Except String String
  dialErr : Option String
  channelErr : Option String
  exchangeErr : Option String
  subscribeErr : Option String
  confirmErr : Option String
  decodeBase64Err : Option String
  downloadErr : Option String
  marshalErr : Option String
  publishErr : Option String
  syncReply : Option OcrResult
  chanBuffered : List OcrResult

/-- Fields of the published AMQP message that the claims track. -/
structure PublishedMessage where
  priority : Nat
  correlationId : String
deriving DecidableEq

/-- Observable outcome of a DecodeImage call: the returned (OcrResult,
    httpCode, error) triple plus which effects were performed. syncWaitSeconds
    is the duration of the synchronous select when its time.After branch fired. -/
structure DecodeOutcome where
  result : OcrResult
  httpCode : Nat
  errMsg : Option String
  dialed : Bool
  publishedMsg : Option PublishedMessage
  registered : Bool
  syncWaitSeconds : Option Nat
deriving DecidableEq

/-- Outcome template with nothing performed. -/
def zeroOutcome : DecodeOutcome :=
  { result := zeroResult, httpCode := 500, errMsg := none, dialed := false,
    publishedMsg := none, registered := false, syncWaitSeconds := none }

/-- ReplyTo normalization (ocr_rpc_client.go lines 78-88): a non-empty ReplyTo
    is validated by checkURLForReplyTo; on success the validated URL replaces
    it and the deferred flag is forced to true. -/
def normalizeReplyTo (env : DialEnv) (req0 : OcrRequest) : Except String OcrRequest :=
  if req0.replyTo ≠ "" then
    match env.checkURLForReplyTo req0.replyTo with
    | Except.error e => Except.error e
    | Except.ok validURL => Except.ok { req0 with replyTo := validURL, deferred := true }
  else Except.ok req0

/-- Tail of DecodeImage from json.Marshal on (ocr_rpc_client.go lines 186-290):
    marshal, publish (line 207 returns a nil error on a publish failure), then
    either the deferred registration that returns {status: processing, id}
    immediately (for both the poll-only and the postback sub-branches, lines
    211-280), or the synchronous select on rpcResponseChan whose
    time.After(ResponseCacheTimeout seconds) branch returns the zero OcrResult,
    500 and the timeout error (lines 281-289). Routing-key selection
    (nextPreprocessor, outside src/) affects none of the tracked fields and is
    elided. -/
def publishAndAwait (cfg : RabbitConfig) (env : DialEnv) (req : OcrRequest)
    (requestID : String) (st : RegistryState) (messagePriority : Nat) :
    DecodeOutcome × RegistryState :=
  match env.marshalErr with
  | some e => ({ zeroOutcome with httpCode := 500, errMsg := some e, dialed := true }, st)
  | none =>
    match env.publishErr with
    | some _ =>
      ({ zeroOutcome with
         result := { zeroResult with id := requestID },
         httpCode := 500, errMsg := none, dialed := true }, st)
    | none =>
      let msg : PublishedMessage := { priority := messagePriority, correlationId := requestID }
      if req.deferred = true then
        let st1 : RegistryState :=
          { requests := (requestID, env.chanBuffered) :: st.requests,
            timers := requestID :: st.timers }
        ({ zeroOutcome with
           result := { text := "", status := "processing", id := requestID },
           httpCode := 200, dialed := true, publishedMsg := some msg,
           registered := true }, st1)
      else
        match env.syncReply with
        | some ocrResult =>
          ({ zeroOutcome with
             result := ocrResult, httpCode := 200, dialed := true,
             publishedMsg := some msg }, st)
        | none =>
          ({ zeroOutcome with
             result := zeroResult, httpCode := 500,
             errMsg := some "timeout waiting for RPC response", dialed := true,
             publishedMsg := some msg,
             syncWaitSeconds := some cfg.responseCacheTimeout }, st)

/-- Image materialization (ocr_rpc_client.go lines 162-181): when no raw bytes
    are present, decode base64 if available, else download the image; a failure
    of either returns 500 without publishing. Continues into publishAndAwait. -/
def decodeImageMaterialize (cfg : RabbitConfig) (env : DialEnv) (req : OcrRequest)
    (requestID : String) (st : RegistryState) (messagePriority : Nat) :
    DecodeOutcome × RegistryState :=
  match req.imgBytes with
  | some _ => publishAndAwait cfg env req requestID st messagePriority
  | none =>
    if req.imgBase64 = true then
      match env.decodeBase64Err with
      | some e => ({ zeroOutcome with httpCode := 500, errMsg := some e, dialed := true }, st)
      | none => publishAndAwait cfg env req requestID st messagePriority
    else
      match env.downloadErr with
      | some e => ({ zeroOutcome with httpCode := 500, errMsg := some e, dialed := true }, st)
      | none => publishAndAwait cfg env req requestID st messagePriority

/-- DecodeImage (ocr_rpc_client.go lines 59-290), sequential model over DialEnv:
    ReplyTo normalization (failure returns 400 before any broker interaction),
    priority selection, timeout clamping, dial, channel, exchange declaration,
    callback-queue subscription, publisher confirms when the reliable flag is
    set, then image materialization, publish and the await phase. Returned
    alongside the outcome is the registry state after the call. -/
def DecodeImage (cfg : RabbitConfig) (env : DialEnv) (req0 : OcrRequest)
    (requestID : String) (st : RegistryState) : DecodeOutcome × RegistryState :=
  match normalizeReplyTo env req0 with
  | Except.error e =>
    ({ zeroOutcome with
       result := { zeroResult with id := requestID },
       httpCode := 400, errMsg := some e }, st)
  | Except.ok req1 =>
    let messagePriority := selectPriority cfg req1.docType
    let req2 : OcrRequest := { req1 with timeOut := clampTimeout cfg req1.timeOut }
    match env.dialErr with
    | some e =>
      ({ zeroOutcome with
         result := { text := "Internal Server Error: message broker is not reachable",
                     status := "error", id := "" },
         httpCode := 500, errMsg := some e, dialed := true }, st)
    | none =>
      match env.channelErr with
      | some e => ({ zeroOutcome with httpCode := 500, errMsg := some e, dialed := true }, st)
      | none =>
        match env.exchangeErr with
        | some e => ({ zeroOutcome with httpCode := 500, errMsg := some e, dialed := true }, st)
        | none =>
          match env.subscribeErr with
          | some e => ({ zeroOutcome with httpCode := 500, errMsg := some e, dialed := true }, st)
          | none =>
            if cfg.reliable = true then
              match env.confirmErr with
              | some e =>
                ({ zeroOutcome with httpCode := 500, errMsg := some e, dialed := true }, st)
              | none => decodeImageMaterialize cfg env req2 requestID st messagePriority
            else decodeImageMaterialize cfg env req2 requestID st messagePriority

/-- Every broker-pipeline step of DecodeImage succeeds in env for req under cfg. -/
def PipelineOk (cfg : RabbitConfig) (env : DialEnv) (req : OcrRequest) : Prop :=
  env.dialErr = none ∧ env.channelErr = none ∧ env.exchangeErr = none ∧
  env.subscribeErr = none ∧ (cfg.reliable = true → env.confirmErr = none) ∧
  (req.imgBytes = none → req.imgBase64 = true → env.decodeBase64Err = none) ∧
  (req.imgBytes = none → req.imgBase64 = false → env.downloadErr = none) ∧
  env.marshalErr = none ∧ env.publishErr = none

theorem normalizeReplyTo_docType (env : DialEnv) (req0 req1 : OcrRequest)
    (h : normalizeReplyTo env req0 = Except.ok req1) :
    req1.docType = req0.docType := by
  unfold normalizeReplyTo at h
  split at h
  · split at h
    · simp at h
    · injection h with h
      subst h
      rfl
  · injection h with h
    subst h
    rfl

theorem publishAndAwait_publishedMsg (cfg : RabbitConfig) (env : DialEnv)
    (req : OcrRequest) (requestID : String) (st : RegistryState) (p : Nat)
    (msg : PublishedMessage)
    (h : (publishAndAwait cfg env req requestID st p).1.publishedMsg = some msg) :
    msg.priority = p := by
  simp only [publishAndAwait] at h
  split at h
  · simp [zeroOutcome] at h
  · split at h
    · simp [zeroOutcome] at h
    · split at h
      · simp only [zeroOutcome, Option.some.injEq] at h
        subst h
        rfl
      · split at h
        · simp only [zeroOutcome, Option.some.injEq] at h
          subst h
          rfl
        · simp only [zeroOutcome, Option.some.injEq] at h
          subst h
          rfl

theorem decodeImageMaterialize_publishedMsg (cfg : RabbitConfig) (env : DialEnv)
    (req : OcrRequest) (requestID : String) (st : RegistryState) (p : Nat)
    (msg : PublishedMessage)
    (h : (decodeImageMaterialize cfg env req requestID st p).1.publishedMsg = some msg) :
    msg.priority = p := by
  simp only [decodeImageMaterialize] at h
  split at h
  · exact publishAndAwait_publishedMsg cfg env req requestID st p msg h
  · split at h
    · split at h
      · simp [zeroOutcome] at h
      · exact publishAndAwait_publishedMsg cfg env req requestID st p msg h
    · split at h
      · simp [zeroOutcome] at h
      · exact publishAndAwait_publishedMsg cfg env req requestID st p msg h

theorem DecodeImage_publishedMsg (cfg : RabbitConfig) (env : DialEnv)
    (req0 : OcrRequest) (requestID : String) (st : RegistryState)
    (msg : PublishedMessage)
    (h : (DecodeImage cfg env req0 requestID st).1.publishedMsg = some msg) :
    msg.priority = selectPriority cfg req0.docType := by
  simp only [DecodeImage] at h
  split at h
  · simp [zeroOutcome] at h
  · rename_i req1 heq
    rw [← normalizeReplyTo_docType env req0 req1 heq]
    split at h
    · simp [zeroOutcome] at h
    · split at h
      · simp [zeroOutcome] at h
      · split at h
        · simp [zeroOutcome] at h
        · split at h
          · simp [zeroOutcome] at h
          · split at h
            · split at h
              · simp [zeroOutcome] at h
              · exact decodeImageMaterialize_publishedMsg cfg env _ requestID st _ msg h
            · exact decodeImageMaterialize_publishedMsg cfg env _ requestID st _ msg h

/-- C4: the published message's priority is queuePrio[docType] when docType is
    set and is a key of the priority table, the table's "standard" entry (the
    Go zero value 0 when that key is absent) when docType is set but absent,
    and 1 when docType is unset; and every message DecodeImage publishes
    carries exactly selectPriority of the request's docType. -/
theorem c4_publish_priority (cfg : RabbitConfig) (docType : String) :
    (∀ v, docType ≠ "" → mapLookup cfg.queuePrio docType = some v →
      selectPriority cfg docType = v) ∧
    (docType ≠ "" → mapLookup cfg.queuePrio docType = none →
      selectPriority cfg docType = (mapLookup cfg.queuePrio "standard").getD 0) ∧
    (docType = "" → selectPriority cfg docType = 1) ∧
    (∀ env req requestID st msg, req.docType = docType →
      (DecodeImage cfg env req requestID st).1.publishedMsg = some msg →
      msg.priority = selectPriority cfg docType) := by
  refine ⟨fun v hne hsome => ?_, fun hne hnone => ?_, fun hempty => ?_,
    fun env req requestID st msg hdoc h => ?_⟩
  · simp [selectPriority, hne, hsome]
  · simp [selectPriority, hne, hnone]
  · simp [selectPriority, hempty]
  · rw [← hdoc]
    exact DecodeImage_publishedMsg cfg env req requestID st msg h

/-- Sample configuration used by concrete evaluations. -/
def sampleConfig : RabbitConfig :=
  { reliable := false, responseCacheTimeout := 240, maximalResponseCacheTimeout := 3600,
    factorForMessageAccept := 2, queuePrio := [("egvp", 9), ("standard", 4)] }

/-- Environment in which every external call succeeds, no reply ever arrives
    and the response channel holds nothing at registration time. -/
def allOkNoReplyEnv : DialEnv :=
  { checkURLForReplyTo := fun u => Except.ok u,
    dialErr := none, channelErr := none, exchangeErr := none, subscribeErr := none,
    confirmErr := none, decodeBase64Err := none, downloadErr := none,
    marshalErr := none, publishErr := none, syncReply := none, chanBuffered := [] }

/-- Sample synchronous request: raw bytes present, in-range timeout of 2. -/
def sampleSyncRequest : OcrRequest :=
  { imgBytes := some [1, 2, 3], imgBase64 := false, docType := "", timeOut := 2,
    deferred := false, replyTo := "" }

/-- Sample deferred poll-only request with DocType "egvp". -/
def sampleDeferredRequest : OcrRequest :=
  { imgBytes := some [7], imgBase64 := false, docType := "egvp", timeOut := 0,
    deferred := true, replyTo := "" }

/-- Sample request carrying a postback URL. -/
def samplePostbackRequest : OcrRequest :=
  { imgBytes := some [1], imgBase64 := false, docType := "", timeOut := 10,
    deferred := false, replyTo := "http://callback/x" }

/-- Environment whose URL validation fails. -/
def badURLEnv : DialEnv :=
  { allOkNoReplyEnv with checkURLForReplyTo := fun _ => Except.error "bad postback url" }

/-- C4 witness: the three priority cases on a concrete table and a concrete
    published message. -/
theorem c4_witness :
    selectPriority sampleConfig "egvp" = 9 ∧
    selectPriority sampleConfig "unknownType" =
      (mapLookup sampleConfig.queuePrio "standard").getD 0 ∧
    selectPriority sampleConfig "" = 1 ∧
    (PublishedMessage.mk 9 "r5").priority = selectPriority sampleConfig "egvp" :=
  ⟨(c4_publish_priority sampleConfig "egvp").1 9 (by decide) (by decide),
   (c4_publish_priority sampleConfig "unknownType").2.1 (by decide) (by decide),
   (c4_publish_priority sampleConfig "").2.2.1 rfl,
   (c4_publish_priority sampleConfig "egvp").2.2.2 allOkNoReplyEnv sampleDeferredRequest
     "r5" { requests := [], timers := [] } (PublishedMessage.mk 9 "r5") rfl (by decide)⟩

/-- C2 (amended): for a synchronous request (empty postback URL, deferred
    false) whose broker pipeline succeeds and to which no reply ever arrives,
    DecodeImage returns after the select waited the configured
    ResponseCacheTimeout (not the request's clamped timeout) and yields the
    zero OcrResult (empty id and empty status), HTTP 500, and the timeout
    error. -/
theorem c2_sync_timeout_zero_result (cfg : RabbitConfig) (env : DialEnv)
    (req : OcrRequest) (requestID : String) (st : RegistryState)
    (hreply : req.replyTo = "") (hdef : req.deferred = false)
    (hok : PipelineOk cfg env req) (hnoreply : env.syncReply = none) :
    DecodeImage cfg env req requestID st =
      ({ zeroOutcome with
         result := zeroResult, httpCode := 500,
         errMsg := some "timeout waiting for RPC response", dialed := true,
         publishedMsg := some { priority := selectPriority cfg req.docType,
                                correlationId := requestID },
         syncWaitSeconds := some cfg.responseCacheTimeout }, st) := by
  obtain ⟨h1, h2, h3, h4, h5, h6, h7, h8, h9⟩ := hok
  cases hrel : cfg.reliable <;> cases hbytes : req.imgBytes <;>
    cases hb64 : req.imgBase64 <;>
      simp [DecodeImage, normalizeReplyTo, decodeImageMaterialize, publishAndAwait,
        hreply, hdef, hnoreply, h1, h2, h3, h4, h5, h6, h7, h8, h9, hrel, hbytes, hb64]

/-- C2 counterexample: the synchronous request "r4" with in-range timeout 2 and
    no reply. DecodeImage returns the zero OcrResult, whose id "" is not "r4"
    and whose status "" is not "error", and the select waited the configured
    ResponseCacheTimeout of 240 seconds although the clamped request timeout
    is 2. -/
theorem c2_counterexample :
    (DecodeImage sampleConfig allOkNoReplyEnv sampleSyncRequest "r4"
        { requests := [], timers := [] }).1.result = zeroResult ∧
    zeroResult.id ≠ "r4" ∧ zeroResult.status ≠ "error" ∧
    (DecodeImage sampleConfig allOkNoReplyEnv sampleSyncRequest "r4"
        { requests := [], timers := [] }).1.httpCode = 500 ∧
    (DecodeImage sampleConfig allOkNoReplyEnv sampleSyncRequest "r4"
        { requests := [], timers := [] }).1.syncWaitSeconds = some 240 ∧
    clampTimeout sampleConfig sampleSyncRequest.timeOut = 2 := by
  decide

/-- C2 witness: the amended behavior at the concrete request "r4". -/
theorem c2_witness :
    DecodeImage sampleConfig allOkNoReplyEnv sampleSyncRequest "r4"
      { requests := [], timers := [] } =
    ({ zeroOutcome with
       result := zeroResult, httpCode := 500,
       errMsg := some "timeout waiting for RPC response", dialed := true,
       publishedMsg := some { priority := selectPriority sampleConfig sampleSyncRequest.docType,
                              correlationId := "r4" },
       syncWaitSeconds := some sampleConfig.responseCacheTimeout },
     { requests := [], timers := [] }) :=
  c2_sync_timeout_zero_result sampleConfig allOkNoReplyEnv sampleSyncRequest "r4"
    { requests := [], timers := [] } rfl rfl
    ⟨rfl, rfl, rfl, rfl, fun _ => rfl, fun _ _ => rfl, fun _ _ => rfl, rfl, rfl⟩ rfl

/-- C7: a non-empty postback URL that fails validation makes DecodeImage return
    400 with the validation error before dialing the broker or publishing; a
    validated postback URL forces the deferred flag, so a successful pipeline
    returns {status: processing, id: requestID} with 200 immediately, without
    the synchronous wait. -/
theorem c7_replyto_validation_and_deferral (cfg : RabbitConfig) (env : DialEnv)
    (req : OcrRequest) (requestID : String) (st : RegistryState) :
    (∀ e, req.replyTo ≠ "" → env.checkURLForReplyTo req.replyTo = Except.error e →
      DecodeImage cfg env req requestID st =
        ({ zeroOutcome with
           result := { zeroResult with id := requestID },
           httpCode := 400, errMsg := some e }, st) ∧
      (DecodeImage cfg env req requestID st).1.dialed = false ∧
      (DecodeImage cfg env req requestID st).1.publishedMsg = none) ∧
    (∀ u, req.replyTo ≠ "" → env.checkURLForReplyTo req.replyTo = Except.ok u →
      PipelineOk cfg env req →
      (DecodeImage cfg env req requestID st).1.result =
        { text := "", status := "processing", id := requestID } ∧
      (DecodeImage cfg env req requestID st).1.httpCode = 200 ∧
      (DecodeImage cfg env req requestID st).1.syncWaitSeconds = none ∧
      (DecodeImage cfg env req requestID st).1.registered = true) := by
  constructor
  · intro e hne hval
    have heq : DecodeImage cfg env req requestID st =
        ({ zeroOutcome with
           result := { zeroResult with id := requestID },
           httpCode := 400, errMsg := some e }, st) := by
      simp [DecodeImage, normalizeReplyTo, hne, hval]
    refine ⟨heq, ?_, ?_⟩ <;> rw [heq] <;> rfl
  · intro u hne hval hok
    obtain ⟨h1, h2, h3, h4, h5, h6, h7, h8, h9⟩ := hok
    have key : (DecodeImage cfg env req requestID st).1 =
        { zeroOutcome with
          result := { text := "", status := "processing", id := requestID },
          httpCode := 200, dialed := true,
          publishedMsg := some { priority := selectPriority cfg req.docType,
                                 correlationId := requestID },
          registered := true } := by
      cases hrel : cfg.reliable <;> cases hbytes : req.imgBytes <;>
        cases hb64 : req.imgBase64 <;>
          simp [DecodeImage, normalizeReplyTo, decodeImageMaterialize, publishAndAwait,
            hne, hval, h1, h2, h3, h4, h5, h6, h7, h8, h9, hrel, hbytes, hb64]
    rw [key]
    exact ⟨rfl, rfl, rfl, rfl⟩

/-- C7 witness: a failing validation at a concrete postback request, and the
    same request under a succeeding validation returning processing at once. -/
theorem c7_witness :
    (DecodeImage sampleConfig badURLEnv samplePostbackRequest "r6"
        { requests := [], timers := [] } =
      ({ zeroOutcome with
         result := { zeroResult with id := "r6" },
         httpCode := 400, errMsg := some "bad postback url" },
       { requests := [], timers := [] }) ∧
     (DecodeImage sampleConfig badURLEnv samplePostbackRequest "r6"
        { requests := [], timers := [] }).1.dialed = false ∧
     (DecodeImage sampleConfig badURLEnv samplePostbackRequest "r6"
        { requests := [], timers := [] }).1.publishedMsg = none) ∧
    ((DecodeImage sampleConfig allOkNoReplyEnv samplePostbackRequest "r7"
        { requests := [], timers := [] }).1.result =
      { text := "", status := "processing", id := "r7" } ∧
     (DecodeImage sampleConfig allOkNoReplyEnv samplePostbackRequest "r7"
        { requests := [], timers := [] }).1.httpCode = 200 ∧
     (DecodeImage sampleConfig allOkNoReplyEnv samplePostbackRequest "r7"
        { requests := [], timers := [] }).1.syncWaitSeconds = none ∧
     (DecodeImage sampleConfig allOkNoReplyEnv samplePostbackRequest "r7"
        { requests := [], timers := [] }).1.registered = true) :=
  ⟨(c7_replyto_validation_and_deferral sampleConfig badURLEnv samplePostbackRequest "r6"
      { requests := [], timers := [] }).1 "bad postback url" (by decide) rfl,
   (c7_replyto_validation_and_deferral sampleConfig allOkNoReplyEnv samplePostbackRequest "r7"
      { requests := [], timers := [] }).2 "http://callback/x" (by decide) rfl
     ⟨rfl, rfl, rfl, rfl, fun _ => rfl, fun _ _ => rfl, fun _ _ => rfl, rfl, rfl⟩⟩

end OpenOcr
